import Mathlib

/-!
Verification of the pda_pinocchio_mapping repository: a deterministic
address-keyed record store (the generic `Mapping` with `create` / `update` /
`set`) together with the two-step escrow protocol (`Make`, `Take`) built on
it.  The Rust sources are shallowly embedded below: each Rust function is
translated into an executable Lean function over explicit account states;
host-runtime collaborators (system-program account creation, value transfer,
rent query) are modelled as explicit state transitions; the SHA-256 based
program-derived-address primitive is modelled as an injective encoding of
its seed inputs; a Rust assertion failure and the undefined behaviour of an
unchecked out-of-bounds raw-pointer read are modelled as distinguished
abort outcomes.
-/

namespace PdaMapping

/-- Little-endian decoding of a byte list into a natural number, as
`u64::from_le_bytes` does on its 8 input bytes. -/
def leDecode (bytes : List Nat) : Nat :=
  bytes.foldr (fun b acc => b + 256 * acc) 0

/-- Little-endian encoding of a natural number into `w` bytes, as
`u64::to_le_bytes` does with `w = 8`. -/
def natToLE : Nat → Nat → List Nat
  | 0, _ => []
  | w + 1, n => (n % 256) :: natToLE w (n / 256)

/-- Overwrite the bytes of `buf` starting at offset `off` with `src`,
as a Rust `copy_from_slice` into a subslice of a byte buffer does. -/
def writeBytes (buf : List Nat) (off : Nat) (src : List Nat) : List Nat :=
  buf.take off ++ src ++ buf.drop (off + src.length)

/-- The model of `pinocchio_pubkey::derive_address(&[name, key, [bump]], None,
program_id)`: the real primitive is a SHA-256 hash of the seeds and the
program id, which this model replaces by an injective length-prefixed
encoding of the same inputs (determinism and injectivity are the properties
the code relies on). -/
def deriveAddress (name key : List Nat) (bump : Nat) (programId : List Nat) :
    List Nat :=
  (name.length :: name) ++ (key.length :: key) ++ [bump] ++
    (programId.length :: programId)

/-- The error outcomes of one instruction invocation.  The first block are
the `pinocchio::program_error::ProgramError` variants this code returns;
`addressMismatchAssert` models the Rust assertion failure raised by the
address-equality checks ("Mapping: Accounts Mismatching"); `indexPanic`
models a bounds-checked Rust index panic; `outOfBoundsRead` marks the
undefined behaviour of an unchecked raw-pointer read past the end of the
instruction payload. -/
inductive PError where
  | notEnoughAccountKeys
  | invalidInstructionData
  | invalidAccountData
  | uninitializedAccount
  | illegalOwner
  | accountAlreadyInitialized
  | insufficientFunds
  | addressMismatchAssert
  | indexPanic
  | outOfBoundsRead
  deriving DecidableEq, Repr

/-- One host-runtime account: its address (`key`), its owner program, its
lamport balance, its stored bytes, and the runtime address at which its data
buffer is mapped (used only by the alignment checks the code performs on
`data.as_ptr()`). -/
structure Account where
  key : List Nat
  owner : List Nat
  lamports : Nat
  data : List Nat
  dataAddr : Nat
  deriving DecidableEq, Repr

/-- The observable effects an invocation performs, in order: a funded
account allocation through the system program, a write of a record's bytes,
and a lamport transfer. -/
inductive Effect where
  | createAccount (funder target : List Nat) (lamports space : Nat)
  | recordWrite (target bytes : List Nat)
  | transfer (source dest : List Nat) (lamports : Nat)
  deriving DecidableEq, Repr

/-- Decidable equality of fallible results, so that concrete outcomes can
be settled by evaluation. -/
instance {ε α : Type} [DecidableEq ε] [DecidableEq α] :
    DecidableEq (Except ε α) := fun x y =>
  match x, y with
  | .error a, .error b =>
    if h : a = b then .isTrue (by rw [h]) else .isFalse (by simp [h])
  | .ok a, .ok b =>
    if h : a = b then .isTrue (by rw [h]) else .isFalse (by simp [h])
  | .error _, .ok _ => .isFalse (by simp)
  | .ok _, .error _ => .isFalse (by simp)

/-- The outcome of an invocation: the effects performed before it finished
or aborted, and either the resulting account states or the abort error.  On
an error the host runtime discards every effect in `trace`; the trace
records what the code did inside the invocation. -/
structure Outcome (σ : Type) where
  trace : List Effect
  res : Except PError σ
  deriving Repr, DecidableEq

/-- `Rent::get()?.minimum_balance(size)`: the minimum lamport balance that
makes an account of `size` data bytes exempt from rent collection.  Modelled
with the host's published constants (two years of rent at 3480
lamports per byte-year over `size + 128` bytes). -/
def rentMinimumBalance (size : Nat) : Nat :=
  (size + 128) * 6960

/-- The capabilities the generic record store needs from its record type
`T : Pod + Bumpy`: the byte size `size_of T` (`T::LEN`), the byte image a
store of a value leaves in an account buffer, and the `bump()` accessor. -/
structure PodBump (α : Type) where
  len : Nat
  toBytes : α → List Nat
  bump : α → Nat

/-- The `Mapping` struct of pda_pinocchio_mapping: a program id, a static
namespace name and the funding account. -/
structure Mapping where
  program_id : List Nat
  name : List Nat
  payer : Account
  deriving DecidableEq, Repr

/-- `core::mem::align_of::<Mapping>()` on the 64-bit target: the struct
holds references, so its alignment is 8.  The mapping methods check the
account data pointer against this alignment. -/
def mappingAlign : Nat := 8

/-- `Mapping::set` (upsert).  Derives the expected address from the
namespace, the key and the value's bump and asserts it equals the account's
address; when the account is not yet owned by the program it allocates
`T::LEN` bytes funded by the payer with the rent-exempt minimum and writes
the value; when it is already owned it re-validates length and alignment
and overwrites in place. -/
def Mapping.set {α : Type} (m : Mapping) (P : PodBump α) (key : List Nat)
    (value : α) (account : Account) : Outcome (Account × Account) :=
  let pda := deriveAddress m.name key (P.bump value) m.program_id
  if pda ≠ account.key then ⟨[], .error .addressMismatchAssert⟩
  else if account.owner ≠ m.program_id then
    let lam := rentMinimumBalance P.len
    if m.payer.lamports < lam then ⟨[], .error .insufficientFunds⟩
    else
      let payer1 := { m.payer with lamports := m.payer.lamports - lam }
      let account1 := { account with
        owner := m.program_id
        lamports := account.lamports + lam
        data := List.replicate P.len 0 }
      let ev := Effect.createAccount m.payer.key account.key lam P.len
      if account1.data.length ≠ P.len then ⟨[ev], .error .invalidAccountData⟩
      else if account1.dataAddr % mappingAlign ≠ 0 then
        ⟨[ev], .error .invalidAccountData⟩
      else
        ⟨[ev, .recordWrite account.key (P.toBytes value)],
          .ok (payer1, { account1 with data := P.toBytes value })⟩
  else
    if account.data.length ≠ P.len then ⟨[], .error .invalidAccountData⟩
    else if account.dataAddr % mappingAlign ≠ 0 then
      ⟨[], .error .invalidAccountData⟩
    else
      ⟨[.recordWrite account.key (P.toBytes value)],
        .ok (m.payer, { account with data := P.toBytes value })⟩

/-- `Mapping::update`: same address assertion; fails `UninitializedAccount`
when the account is not owned by the program; otherwise re-validates length
and alignment and overwrites in place. -/
def Mapping.update {α : Type} (m : Mapping) (P : PodBump α) (key : List Nat)
    (value : α) (account : Account) : Outcome (Account × Account) :=
  let pda := deriveAddress m.name key (P.bump value) m.program_id
  if pda ≠ account.key then ⟨[], .error .addressMismatchAssert⟩
  else if account.owner ≠ m.program_id then
    ⟨[], .error .uninitializedAccount⟩
  else
    if account.data.length ≠ P.len then ⟨[], .error .invalidAccountData⟩
    else if account.dataAddr % mappingAlign ≠ 0 then
      ⟨[], .error .invalidAccountData⟩
    else
      ⟨[.recordWrite account.key (P.toBytes value)],
        .ok (m.payer, { account with data := P.toBytes value })⟩

/-- `Mapping::create`: same address assertion; when the account is not yet
owned by the program it performs the same allocation-and-write path as
`set`; when it is already owned it fails `IllegalOwner`. -/
def Mapping.create {α : Type} (m : Mapping) (P : PodBump α) (key : List Nat)
    (value : α) (account : Account) : Outcome (Account × Account) :=
  let pda := deriveAddress m.name key (P.bump value) m.program_id
  if pda ≠ account.key then ⟨[], .error .addressMismatchAssert⟩
  else if account.owner ≠ m.program_id then
    let lam := rentMinimumBalance P.len
    if m.payer.lamports < lam then ⟨[], .error .insufficientFunds⟩
    else
      let payer1 := { m.payer with lamports := m.payer.lamports - lam }
      let account1 := { account with
        owner := m.program_id
        lamports := account.lamports + lam
        data := List.replicate P.len 0 }
      let ev := Effect.createAccount m.payer.key account.key lam P.len
      if account1.data.length ≠ P.len then ⟨[ev], .error .invalidAccountData⟩
      else if account1.dataAddr % mappingAlign ≠ 0 then
        ⟨[ev], .error .invalidAccountData⟩
      else
        ⟨[ev, .recordWrite account.key (P.toBytes value)],
          .ok (payer1, { account1 with data := P.toBytes value })⟩
  else
    ⟨[], .error .illegalOwner⟩

end PdaMapping

namespace Escrow

open PdaMapping

/-- The escrow program's 32-byte id, declared by the crate through
declare_id.  Its concrete value is immaterial to every property proved
here, so the model fixes an arbitrary 32-byte constant. -/
def crateID : List Nat := List.replicate 32 7

/-- The namespace seed b"escrow" (its UTF-8 bytes). -/
def escrowName : List Nat := [101, 115, 99, 114, 111, 119]

/-- The namespace seed b"shares" (its UTF-8 bytes). -/
def sharesName : List Nat := [115, 104, 97, 114, 101, 115]

/-- The `Share` record: `{maker: [u8;32], taker: [u8;32], amount: [u8;8],
bump: u8}`, repr(C). -/
structure Share where
  maker : List Nat
  taker : List Nat
  amount : List Nat
  bump : Nat
  deriving DecidableEq, Repr

/-- `core::mem::align_of::<Share>()`: every field is a byte array, so the
alignment is 1. -/
def shareAlign : Nat := 1

/-- The `Pod + Bumpy` capabilities of `Share`: `size_of::<Share>() = 73`
(32 + 32 + 8 + 1, repr(C), no padding), its byte image is the
concatenation of its fields, and `bump()` returns the `bump` field. -/
def sharePod : PodBump Share where
  len := 73
  toBytes := fun s => s.maker ++ s.taker ++ s.amount ++ [s.bump]
  bump := Share.bump

/-- `Share::mapping_set`: the inline duplicate of `Mapping::set` with the
namespace fixed to b"shares" and the program id fixed to `crate::ID`.  Its
only textual difference from the generic method is the alignment check,
which uses `align_of::<Share>()` (1) instead of `align_of::<Mapping>()`
(8). -/
def Share.mapping_set {α : Type} (P : PodBump α) (key : List Nat) (value : α)
    (account payer : Account) : Outcome (Account × Account) :=
  let pda := deriveAddress sharesName key (P.bump value) crateID
  if pda ≠ account.key then ⟨[], .error .addressMismatchAssert⟩
  else if account.owner ≠ crateID then
    let lam := rentMinimumBalance P.len
    if payer.lamports < lam then ⟨[], .error .insufficientFunds⟩
    else
      let payer1 := { payer with lamports := payer.lamports - lam }
      let account1 := { account with
        owner := crateID
        lamports := account.lamports + lam
        data := List.replicate P.len 0 }
      let ev := Effect.createAccount payer.key account.key lam P.len
      if account1.data.length ≠ P.len then ⟨[ev], .error .invalidAccountData⟩
      else if account1.dataAddr % shareAlign ≠ 0 then
        ⟨[ev], .error .invalidAccountData⟩
      else
        ⟨[ev, .recordWrite account.key (P.toBytes value)],
          .ok (payer1, { account1 with data := P.toBytes value })⟩
  else
    if account.data.length ≠ P.len then ⟨[], .error .invalidAccountData⟩
    else if account.dataAddr % shareAlign ≠ 0 then
      ⟨[], .error .invalidAccountData⟩
    else
      ⟨[.recordWrite account.key (P.toBytes value)],
        .ok (payer, { account with data := P.toBytes value })⟩

/-- `Share::mapping_create`: the inline duplicate of the create path, with
namespace b"shares", alignment `align_of::<Share>()`, and the error
`AccountAlreadyInitialized` (not `IllegalOwner`) when the account is
already owned by the program. -/
def Share.mapping_create {α : Type} (P : PodBump α) (key : List Nat)
    (value : α) (account payer : Account) : Outcome (Account × Account) :=
  let pda := deriveAddress sharesName key (P.bump value) crateID
  if pda ≠ account.key then ⟨[], .error .addressMismatchAssert⟩
  else if account.owner ≠ crateID then
    let lam := rentMinimumBalance P.len
    if payer.lamports < lam then ⟨[], .error .insufficientFunds⟩
    else
      let payer1 := { payer with lamports := payer.lamports - lam }
      let account1 := { account with
        owner := crateID
        lamports := account.lamports + lam
        data := List.replicate P.len 0 }
      let ev := Effect.createAccount payer.key account.key lam P.len
      if account1.data.length ≠ P.len then ⟨[ev], .error .invalidAccountData⟩
      else if account1.dataAddr % shareAlign ≠ 0 then
        ⟨[ev], .error .invalidAccountData⟩
      else
        ⟨[ev, .recordWrite account.key (P.toBytes value)],
          .ok (payer1, { account1 with data := P.toBytes value })⟩
  else
    ⟨[], .error .accountAlreadyInitialized⟩

/-- `Escrow::LEN`, the active constant in src/state/escrow.rs:
`32 + 32 + 32 + 8 + 8 + 1 = 113` (a commented-out alternative reads
`32 + 32 + 32 + 8 + 8`).  Note the `Escrow` struct itself occupies only
`32 + 8 + 8 + 1 = 49` bytes. -/
def escrowLEN : Nat := 32 + 32 + 32 + 8 + 8 + 1

/-- `core::mem::align_of::<Escrow>()`: every field is a byte array or a
byte, so the alignment is 1.  `Escrow::from_account_info` checks the data
pointer against this alignment. -/
def escrowAlign : Nat := 1

/-- `process_make_instruction`.  Destructures the required accounts (else
`NotEnoughAccountKeys`); reads `amount_to_receive` and `amount_to_give`
with unchecked raw-pointer loads at payload offsets 1 and 9 — a payload
shorter than 17 bytes makes those loads read out of bounds, modelled as the
`outOfBoundsRead` abort; asserts the escrow account's address equals
`derive(b"escrow", maker, bump)`; when the account is not owned by the
program, allocates `Escrow::LEN` bytes funded by the maker with the
rent-exempt minimum, then writes the fields through the
`Escrow::from_account_info` view: the maker key at offset 0, the two
amounts at offsets 32 and 40, the bump byte at offset 48; when the account
is already owned it fails `IllegalOwner`. -/
def process_make_instruction (accounts : List Account) (data : List Nat) :
    Outcome (Account × Account) :=
  match accounts with
  | maker :: escrow_account :: _system_program :: _rest =>
    if data.length < 17 then ⟨[], .error .outOfBoundsRead⟩
    else
      let amount_to_receive := leDecode ((data.drop 1).take 8)
      let amount_to_give := leDecode ((data.drop 9).take 8)
      let bump := data.headI
      let pda := deriveAddress escrowName maker.key bump crateID
      if pda ≠ escrow_account.key then ⟨[], .error .addressMismatchAssert⟩
      else if escrow_account.owner ≠ crateID then
        let lam := rentMinimumBalance escrowLEN
        if maker.lamports < lam then ⟨[], .error .insufficientFunds⟩
        else
          let maker1 := { maker with lamports := maker.lamports - lam }
          let esc1 := { escrow_account with
            owner := crateID
            lamports := escrow_account.lamports + lam
            data := List.replicate escrowLEN 0 }
          let ev := Effect.createAccount maker.key escrow_account.key lam
            escrowLEN
          if esc1.data.length ≠ escrowLEN then
            ⟨[ev], .error .invalidAccountData⟩
          else if esc1.dataAddr % escrowAlign ≠ 0 then
            ⟨[ev], .error .invalidAccountData⟩
          else
            let d1 := writeBytes esc1.data 0 maker.key
            let d2 := writeBytes d1 32 (natToLE 8 amount_to_receive)
            let d3 := writeBytes d2 40 (natToLE 8 amount_to_give)
            let d4 := writeBytes d3 48 [bump]
            ⟨[ev, .recordWrite escrow_account.key d4],
              .ok (maker1, { esc1 with data := d4 })⟩
      else ⟨[], .error .illegalOwner⟩
  | _ => ⟨[], .error .notEnoughAccountKeys⟩

/-- `process_take_instruction`.  Destructures the required accounts (else
`NotEnoughAccountKeys`); reads the shares bump with a checked index
(`data[0]`, an index panic on an empty payload) and the two amounts with
unchecked raw-pointer loads at offsets 1 and 9 (out-of-bounds for a payload
of 1..16 bytes); builds `Share{maker, taker, amount: amount_to_give, bump:
shares_bump}`; upserts it through `Mapping::set` with namespace b"shares",
**key `maker.key()`** and payer `taker`; then transfers
`amount_to_receive` lamports from the taker to the maker through the
system program.  The escrow account is bound but never read. -/
def process_take_instruction (accounts : List Account) (data : List Nat) :
    Outcome (Account × Account × Account × Account) :=
  match accounts with
  | taker :: maker :: escrow_account :: shares_account :: _system_program ::
      _rest =>
    if data.length = 0 then ⟨[], .error .indexPanic⟩
    else if data.length < 17 then ⟨[], .error .outOfBoundsRead⟩
    else
      let shares_bump := data.headI
      let amount_to_receive := leDecode ((data.drop 1).take 8)
      let amount_to_give := leDecode ((data.drop 9).take 8)
      let shares_state : Share :=
        ⟨maker.key, taker.key, natToLE 8 amount_to_give, shares_bump⟩
      let m : Mapping := ⟨crateID, sharesName, taker⟩
      let o := m.set sharePod maker.key shares_state shares_account
      match o.res with
      | .error e => ⟨o.trace, .error e⟩
      | .ok (taker1, shares1) =>
        if taker1.lamports < amount_to_receive then
          ⟨o.trace, .error .insufficientFunds⟩
        else
          ⟨o.trace ++ [.transfer taker.key maker.key amount_to_receive],
            .ok ({ taker1 with
                    lamports := taker1.lamports - amount_to_receive },
                 { maker with
                    lamports := maker.lamports + amount_to_receive },
                 escrow_account, shares1)⟩
  | _ => ⟨[], .error .notEnoughAccountKeys⟩

end Escrow

namespace PdaMapping

/-- The length of a `w`-byte little-endian encoding is `w`. -/
theorem natToLE_length (w n : Nat) : (natToLE w n).length = w := by
  induction w generalizing n with
  | zero => rfl
  | succ w ih => simp [natToLE, ih]

/-- Overwriting the bytes right after a prefix `a` replaces the first
`src.length` bytes of the suffix. -/
theorem writeBytes_at (a b src : List Nat) :
    writeBytes (a ++ b) a.length src = a ++ src ++ b.drop src.length := by
  unfold writeBytes
  rw [List.take_left, List.drop_append]

/-- When `Mapping::set` succeeds, the written account sits at the derived
address, is owned by the program, holds exactly the byte encoding of the
stored value, and its balance was only possibly increased by the funded
allocation. -/
theorem Mapping.set_ok_inv {α : Type} (m : Mapping) (P : PodBump α)
    (key : List Nat) (value : α) (account p1 a1 : Account)
    (h : (m.set P key value account).res = .ok (p1, a1)) :
    a1.key = deriveAddress m.name key (P.bump value) m.program_id ∧
    a1.owner = m.program_id ∧ a1.data = P.toBytes value ∧
    a1.dataAddr = account.dataAddr := by
  simp only [Mapping.set] at h
  by_cases h1 :
      deriveAddress m.name key (P.bump value) m.program_id = account.key
  · rw [if_neg (by simpa using h1)] at h
    by_cases h2 : account.owner = m.program_id
    · rw [if_neg (by simpa using h2)] at h
      split at h
      · exact absurd h (by simp)
      · split at h
        · exact absurd h (by simp)
        · simp only [Except.ok.injEq, Prod.mk.injEq] at h
          obtain ⟨-, h3⟩ := h
          subst h3
          exact ⟨h1.symm, h2, rfl, rfl⟩
    · rw [if_pos (by simpa using h2)] at h
      split at h
      · exact absurd h (by simp)
      · split at h
        · exact absurd h (by simp)
        · split at h
          · exact absurd h (by simp)
          · simp only [Except.ok.injEq, Prod.mk.injEq] at h
            obtain ⟨-, h3⟩ := h
            subst h3
            exact ⟨h1.symm, rfl, rfl, rfl⟩
  · rw [if_pos (by simpa using h1)] at h
    exact absurd h (by simp)

/-- Recognizer for lamport-transfer events. -/
def isTransfer : Effect → Bool
  | .transfer _ _ _ => true
  | _ => false

/-- Recognizer for record-write events. -/
def isWrite : Effect → Bool
  | .recordWrite _ _ => true
  | _ => false

/-- `Mapping::set` never transfers lamports between user accounts (its only
balance movement is the funded allocation), and whenever it succeeds its
effect trace contains the record write. -/
theorem Mapping.set_shape {α : Type} (m : Mapping) (P : PodBump α)
    (key : List Nat) (value : α) (account : Account) :
    (m.set P key value account).trace.all (fun ev => !(isTransfer ev)) =
      true ∧
    (∀ p1 a1, (m.set P key value account).res = .ok (p1, a1) →
      (m.set P key value account).trace =
        (m.set P key value account).trace.dropLast ++
          [Effect.recordWrite account.key (P.toBytes value)] ∧
      (m.set P key value account).trace.dropLast.all
        (fun ev => !(isWrite ev)) = true) := by
  by_cases h1 :
      deriveAddress m.name key (P.bump value) m.program_id = account.key
  · by_cases h2 : account.owner = m.program_id
    · by_cases h3 : account.data.length = P.len
      · by_cases h4 : account.dataAddr % mappingAlign = 0
        · simp [Mapping.set, h1, h2, h3, h4, isTransfer, isWrite]
        · simp [Mapping.set, h1, h2, h3, h4, isTransfer]
      · simp [Mapping.set, h1, h2, h3, isTransfer]
    · by_cases h3 : m.payer.lamports < rentMinimumBalance P.len
      · simp [Mapping.set, h1, h2, h3, isTransfer]
      · by_cases h4 : account.dataAddr % mappingAlign = 0
        · simp [Mapping.set, h1, h2, h3, h4, isTransfer, isWrite]
        · simp [Mapping.set, h1, h2, h3, h4, isTransfer]
  · simp [Mapping.set, h1, isTransfer]

end PdaMapping

namespace Escrow

/-- A convenience constructor mirroring `Mapping::new`. -/
def Mapping.new (program_id name : List Nat) (payer : PdaMapping.Account) :
    PdaMapping.Mapping :=
  ⟨program_id, name, payer⟩

namespace Fix

open PdaMapping

/-- A 32-byte taker key used by the concrete witnesses. -/
def tKey : List Nat := List.replicate 32 1

/-- A 32-byte maker key used by the concrete witnesses. -/
def mKey : List Nat := List.replicate 32 2

/-- The system-program account slot (its contents are never read). -/
def sysA : Account := ⟨List.replicate 32 0, [], 1, [], 0⟩

/-- A funded taker account owned by the system program. -/
def taker : Account := ⟨tKey, List.replicate 32 0, 10000000, [], 0⟩

/-- A funded maker account owned by the system program. -/
def maker : Account := ⟨mKey, List.replicate 32 0, 10000000, [], 0⟩

/-- A concrete `Share` value with well-formed field widths. -/
def share : Share := ⟨mKey, tKey, natToLE 8 3, 5⟩

/-- The address `derive(b"shares", mKey, 5)` under the program id. -/
def sharesAddr : List Nat := deriveAddress sharesName mKey 5 crateID

/-- A not-yet-created shares account at the derived address. -/
def sharesNew : Account := ⟨sharesAddr, List.replicate 32 0, 0, [], 0⟩

/-- An already-initialized shares account at the derived address, owned by
the program, sized for a `Share`. -/
def sharesOwned : Account :=
  ⟨sharesAddr, crateID, 1398960, List.replicate 73 0, 0⟩

/-- The address `derive(b"escrow", mKey, 4)` under the program id. -/
def escrowAddr : List Nat := deriveAddress escrowName mKey 4 crateID

/-- A not-yet-created escrow account at the derived address. -/
def escrowNew : Account := ⟨escrowAddr, List.replicate 32 0, 0, [], 0⟩

/-- An account whose address matches no derivation used here. -/
def strayAcc : Account := ⟨List.replicate 32 9, List.replicate 32 0, 0, [], 0⟩

/-- A program-owned shares account whose stored length (72) differs from
`size_of::<Share>()` (73). -/
def wrongLenAcc : Account :=
  ⟨sharesAddr, crateID, 1398960, List.replicate 72 0, 0⟩

/-- A program-owned shares account of the right size whose data buffer sits
at runtime address 4, which is 1-aligned but not 8-aligned. -/
def misalignedAcc : Account :=
  ⟨sharesAddr, crateID, 1398960, List.replicate 73 0, 4⟩

/-- A taker holding exactly the rent-exempt minimum for a `Share` record:
the funded allocation succeeds and leaves it unable to pay any transfer. -/
def poorTaker : Account := ⟨tKey, List.replicate 32 0, 1398960, [], 0⟩

/-- A well-formed 17-byte Take payload: bump 5, amount_to_receive 10,
amount_to_give 3. -/
def takeData : List Nat := 5 :: (natToLE 8 10 ++ natToLE 8 3)

/-- A well-formed 17-byte Make payload: bump 4, amount_to_receive 7,
amount_to_give 9. -/
def makeData : List Nat := 4 :: (natToLE 8 7 ++ natToLE 8 9)

end Fix

end Escrow

namespace Escrow

open PdaMapping

/-- Claim C4: whenever the supplied account's address differs from the
derived address, `Mapping::set`, `Mapping::update`, `Mapping::create` and
`process_make_instruction` all abort with the address-mismatch assertion
failure before performing any allocation, write or transfer (empty effect
trace), so no partial account can exist afterward. -/
theorem c4_address_mismatch_aborts_first :
    (∀ {α : Type} (m : Mapping) (P : PodBump α) (key : List Nat) (value : α)
      (account : Account),
      account.key ≠ deriveAddress m.name key (P.bump value) m.program_id →
      m.set P key value account = ⟨[], .error .addressMismatchAssert⟩ ∧
      m.update P key value account = ⟨[], .error .addressMismatchAssert⟩ ∧
      m.create P key value account = ⟨[], .error .addressMismatchAssert⟩) ∧
    (∀ (maker escrow sys : Account) (rest : List Account) (data : List Nat),
      17 ≤ data.length →
      escrow.key ≠ deriveAddress escrowName maker.key data.headI crateID →
      process_make_instruction (maker :: escrow :: sys :: rest) data =
        ⟨[], .error .addressMismatchAssert⟩) := by
  constructor
  · intro α m P key value account h
    have h' :
        deriveAddress m.name key (P.bump value) m.program_id ≠ account.key :=
      fun hh => h hh.symm
    refine ⟨?_, ?_, ?_⟩ <;>
      simp [Mapping.set, Mapping.update, Mapping.create, h']
  · intro maker escrow sys rest data hlen h
    have h' :
        deriveAddress escrowName maker.key data.headI crateID ≠
          escrow.key := fun hh => h hh.symm
    simp only [process_make_instruction]
    rw [if_neg (by omega), if_pos h']

/-- Witness for C4 at a concrete mismatching account. -/
theorem c4_witness :
    Mapping.set (Mapping.new crateID sharesName Fix.taker) sharePod Fix.mKey
        Fix.share Fix.strayAcc = ⟨[], .error .addressMismatchAssert⟩ ∧
    process_make_instruction [Fix.maker, Fix.strayAcc, Fix.sysA]
        (4 :: natToLE 8 7 ++ natToLE 8 9) =
      ⟨[], .error .addressMismatchAssert⟩ := by
  exact ⟨(c4_address_mismatch_aborts_first.1 _ _ _ _ _ (by decide)).1,
    c4_address_mismatch_aborts_first.2 _ _ _ [] _ (by decide) (by decide)⟩

/-- Counterexample to claim C5 as stated: a `Mapping::create` call on an
account already owned by the program fails with `IllegalOwner`, which is a
different error kind from the `AccountAlreadyInitialized` variant (the
`AlreadyInitialized` kind only the inline `Share::mapping_create` uses). -/
theorem c5_counterexample :
    Mapping.create (Mapping.new crateID sharesName Fix.taker) sharePod
        Fix.mKey Fix.share Fix.sharesOwned =
      ⟨[], .error .illegalOwner⟩ ∧
    PError.illegalOwner ≠ PError.accountAlreadyInitialized := by
  exact ⟨by decide, by decide⟩

/-- Amended claim C5: a create call on a target already owned by the
program fails with no effect performed (empty trace, so the stored bytes
remain exactly as written); the generic `Mapping::create` reports
`IllegalOwner`, while the inline `Share::mapping_create` reports
`AccountAlreadyInitialized`. -/
theorem c5_create_owned_fails_without_mutation :
    (∀ {α : Type} (m : Mapping) (P : PodBump α) (key : List Nat) (value : α)
      (account : Account),
      account.key = deriveAddress m.name key (P.bump value) m.program_id →
      account.owner = m.program_id →
      m.create P key value account = ⟨[], .error .illegalOwner⟩) ∧
    (∀ {α : Type} (P : PodBump α) (key : List Nat) (value : α)
      (account payer : Account),
      account.key = deriveAddress sharesName key (P.bump value) crateID →
      account.owner = crateID →
      Share.mapping_create P key value account payer =
        ⟨[], .error .accountAlreadyInitialized⟩) := by
  constructor
  · intro α m P key value account hkey hown
    simp [Mapping.create, hkey, hown]
  · intro α P key value account payer hkey hown
    simp [Share.mapping_create, hkey, hown]

/-- Witness for the amended C5 at a concrete owned account. -/
theorem c5_witness :
    Mapping.create (Mapping.new crateID sharesName Fix.taker) sharePod
        Fix.mKey Fix.share Fix.sharesOwned = ⟨[], .error .illegalOwner⟩ ∧
    Share.mapping_create sharePod Fix.mKey Fix.share Fix.sharesOwned
        Fix.taker = ⟨[], .error .accountAlreadyInitialized⟩ := by
  exact ⟨c5_create_owned_fails_without_mutation.1 _ _ _ _ _ (by decide)
      (by decide),
    c5_create_owned_fails_without_mutation.2 _ _ _ _ _ (by decide)
      (by decide)⟩

/-- Claim C6: on an account already owned by the program whose address
matches the derivation, whose stored length equals the record size and
whose data pointer is suitably aligned, `Mapping::set` succeeds and
overwrites the stored bytes with the byte encoding of the value; a second
identical `set` also succeeds and leaves the identical stored bytes, so
`set` never fails solely because the record pre-exists and is idempotent. -/
theorem c6_set_overwrites_and_is_idempotent {α : Type} (m : Mapping)
    (P : PodBump α) (key : List Nat) (value : α) (account : Account)
    (hkey : account.key = deriveAddress m.name key (P.bump value) m.program_id)
    (hown : account.owner = m.program_id)
    (hlen : account.data.length = P.len)
    (halign : account.dataAddr % mappingAlign = 0)
    (henc : (P.toBytes value).length = P.len) :
    (m.set P key value account).res =
      .ok (m.payer, { account with data := P.toBytes value }) ∧
    (m.set P key value { account with data := P.toBytes value }).res =
      .ok (m.payer, { account with data := P.toBytes value }) := by
  constructor
  · simp [Mapping.set, hkey, hown, hlen, halign]
  · simp [Mapping.set, hkey, hown, henc, halign]

/-- Witness for C6 at a concrete pre-existing record. -/
theorem c6_witness :
    (Mapping.set (Mapping.new crateID sharesName Fix.taker) sharePod Fix.mKey
        Fix.share Fix.sharesOwned).res =
      .ok (Fix.taker, { Fix.sharesOwned with data := sharePod.toBytes Fix.share }) ∧
    (Mapping.set (Mapping.new crateID sharesName Fix.taker) sharePod Fix.mKey
        Fix.share { Fix.sharesOwned with data := sharePod.toBytes Fix.share }).res =
      .ok (Fix.taker, { Fix.sharesOwned with data := sharePod.toBytes Fix.share }) := by
  exact c6_set_overwrites_and_is_idempotent _ _ _ _ _ (by decide) (by decide)
    (by decide) (by decide) (by decide)

/-- Claim C8 (the code-level behaviour at the failing input): a Make or
Take invocation whose payload is a single byte does not fail cleanly on a
length check — the unchecked raw-pointer loads at payload offsets 1 and 9
read 16 bytes past the payload's end, modelled as the out-of-bounds abort;
a Take with an empty payload stops at the checked `data[0]` index panic. -/
theorem c8_short_payload_reads_out_of_bounds :
    (process_make_instruction [Fix.maker, Fix.escrowNew, Fix.sysA]
        [42]).res = .error .outOfBoundsRead ∧
    (process_take_instruction
        [Fix.taker, Fix.maker, Fix.escrowNew, Fix.sharesNew, Fix.sysA]
        [42]).res = .error .outOfBoundsRead ∧
    (process_take_instruction
        [Fix.taker, Fix.maker, Fix.escrowNew, Fix.sharesNew, Fix.sysA]
        []).res = .error .indexPanic := by
  exact ⟨by decide, by decide, by decide⟩

/-- Counterexample to claim C7 as stated: an `update` whose target's stored
length differs from the record size fails with `InvalidAccountData`, the
very same error kind an alignment violation produces, so the size
violation is not reported as a distinct `SizeMismatch` kind. -/
theorem c7_counterexample :
    Mapping.update (Mapping.new crateID sharesName Fix.taker) sharePod
        Fix.mKey Fix.share Fix.wrongLenAcc =
      ⟨[], .error .invalidAccountData⟩ ∧
    Mapping.update (Mapping.new crateID sharesName Fix.taker) sharePod
        Fix.mKey Fix.share Fix.misalignedAcc =
      ⟨[], .error .invalidAccountData⟩ := by
  exact ⟨by decide, by decide⟩

/-- Amended claim C7: for an `update` whose target address matches the
derivation — if the target is not owned by the program the call fails
`UninitializedAccount`; if it is owned and the stored length differs from
the record size it fails `InvalidAccountData` (as §4.2 states, not a
distinct `SizeMismatch` kind); if the length matches but the data pointer
is misaligned it also fails `InvalidAccountData`; otherwise it overwrites
the stored bytes with the value's encoding.  Every failure has an empty
effect trace, so the stored bytes are unchanged. -/
theorem c7_update_checks_then_overwrites {α : Type} (m : Mapping)
    (P : PodBump α) (key : List Nat) (value : α) (account : Account)
    (hkey : account.key =
      deriveAddress m.name key (P.bump value) m.program_id) :
    (account.owner ≠ m.program_id →
      m.update P key value account = ⟨[], .error .uninitializedAccount⟩) ∧
    (account.owner = m.program_id → account.data.length ≠ P.len →
      m.update P key value account = ⟨[], .error .invalidAccountData⟩) ∧
    (account.owner = m.program_id → account.data.length = P.len →
      account.dataAddr % mappingAlign ≠ 0 →
      m.update P key value account = ⟨[], .error .invalidAccountData⟩) ∧
    (account.owner = m.program_id → account.data.length = P.len →
      account.dataAddr % mappingAlign = 0 →
      (m.update P key value account).res =
        .ok (m.payer, { account with data := P.toBytes value })) := by
  refine ⟨fun hown => ?_, fun hown hlen => ?_, fun hown hlen hal => ?_,
    fun hown hlen hal => ?_⟩
  · simp [Mapping.update, hkey, hown]
  · simp [Mapping.update, hkey, hown, hlen]
  · simp [Mapping.update, hkey, hown, hlen, hal]
  · simp [Mapping.update, hkey, hown, hlen, hal]

/-- Witness for the amended C7 at concrete accounts exercising the
not-owned, wrong-length and successful-overwrite cases. -/
theorem c7_witness :
    Mapping.update (Mapping.new crateID sharesName Fix.taker) sharePod
        Fix.mKey Fix.share Fix.sharesNew =
      ⟨[], .error .uninitializedAccount⟩ ∧
    Mapping.update (Mapping.new crateID sharesName Fix.taker) sharePod
        Fix.mKey Fix.share Fix.wrongLenAcc =
      ⟨[], .error .invalidAccountData⟩ ∧
    (Mapping.update (Mapping.new crateID sharesName Fix.taker) sharePod
        Fix.mKey Fix.share Fix.sharesOwned).res =
      .ok (Fix.taker,
        { Fix.sharesOwned with data := sharePod.toBytes Fix.share }) := by
  exact ⟨(c7_update_checks_then_overwrites _ _ _ _ _ (by decide)).1
      (by decide),
    (c7_update_checks_then_overwrites _ _ _ _ _ (by decide)).2.1
      (by decide) (by decide),
    (c7_update_checks_then_overwrites _ _ _ _ _ (by decide)).2.2.2
      (by decide) (by decide) (by decide)⟩

/-- Counterexample to claim C10 as stated: on a program-owned, correctly
sized account whose data buffer is 1-aligned but not 8-aligned, the inline
`Share::mapping_set` succeeds (it checks alignment of `Share`, which is 1)
while the generic `Mapping::set` fails `InvalidAccountData` (it checks
alignment of the `Mapping` struct, which is 8) — the two are not
behaviourally identical. -/
theorem c10_counterexample :
    (Share.mapping_set sharePod Fix.mKey Fix.share Fix.misalignedAcc
        Fix.taker).res =
      .ok (Fix.taker,
        { Fix.misalignedAcc with data := sharePod.toBytes Fix.share }) ∧
    (Mapping.new crateID sharesName Fix.taker).set sharePod Fix.mKey
        Fix.share Fix.misalignedAcc = ⟨[], .error .invalidAccountData⟩ := by
  exact ⟨by decide, by decide⟩

/-- Amended claim C10: whenever the account's data buffer is 8-byte
aligned (as every buffer the host runtime hands over is), the inline
`Share::mapping_set` and the generic
`Mapping::new(crate::ID, b"shares", payer).set` produce identical
outcomes — same derived-address check, same owner branching, same
allocation size and funding, same validation errors, same stored bytes;
the sole divergence is the alignment modulus (1 versus 8) exhibited by the
counterexample. -/
theorem c10_mapping_set_agrees_when_aligned {α : Type} (P : PodBump α)
    (key : List Nat) (value : α) (account payer : Account)
    (halign : account.dataAddr % 8 = 0) :
    Share.mapping_set P key value account payer =
      (Mapping.new crateID sharesName payer).set P key value account := by
  have h1 : account.dataAddr % 1 = 0 := Nat.mod_one _
  simp only [Share.mapping_set, Mapping.set, Mapping.new, mappingAlign,
    shareAlign, halign, h1]

/-- The byte image the Make field setters leave in the freshly allocated
`Escrow::LEN`-byte buffer: the 32-byte maker key, the two 8-byte
little-endian amounts, the bump byte, and 64 untouched zero bytes. -/
theorem escrow_write_layout (mk : List Nat) (atr atg b : Nat)
    (hk : mk.length = 32) :
    writeBytes (writeBytes (writeBytes (writeBytes
        (List.replicate escrowLEN 0) 0 mk) 32 (natToLE 8 atr)) 40
        (natToLE 8 atg)) 48 [b] =
      mk ++ natToLE 8 atr ++ natToLE 8 atg ++ [b] ++
        List.replicate 64 0 := by
  have h0 : writeBytes (List.replicate escrowLEN 0) 0 mk =
      mk ++ List.replicate 81 0 := by
    have := writeBytes_at [] (List.replicate escrowLEN 0) mk
    simpa [escrowLEN, hk, List.drop_replicate] using this
  have h1 : writeBytes (mk ++ List.replicate 81 0) 32 (natToLE 8 atr) =
      mk ++ natToLE 8 atr ++ List.replicate 73 0 := by
    have := writeBytes_at mk (List.replicate 81 0) (natToLE 8 atr)
    rw [hk] at this
    simpa [natToLE_length, List.drop_replicate, List.append_assoc]
      using this
  have h2 : writeBytes (mk ++ natToLE 8 atr ++ List.replicate 73 0) 40
      (natToLE 8 atg) =
      mk ++ natToLE 8 atr ++ natToLE 8 atg ++ List.replicate 65 0 := by
    have := writeBytes_at (mk ++ natToLE 8 atr) (List.replicate 73 0)
      (natToLE 8 atg)
    rw [List.length_append, hk, natToLE_length] at this
    simpa [natToLE_length, List.drop_replicate, List.append_assoc]
      using this
  have h3 : writeBytes
      (mk ++ natToLE 8 atr ++ natToLE 8 atg ++ List.replicate 65 0) 48
      [b] =
      mk ++ natToLE 8 atr ++ natToLE 8 atg ++ [b] ++
        List.replicate 64 0 := by
    have := writeBytes_at (mk ++ natToLE 8 atr ++ natToLE 8 atg)
      (List.replicate 65 0) [b]
    rw [List.length_append, List.length_append, hk, natToLE_length,
      natToLE_length] at this
    simpa [List.drop_replicate, List.append_assoc] using this
  rw [h0, h1, h2, h3]

/-- Counterexample to claim C3 as stated: the active `Escrow::LEN`
constant is 113 bytes (32+32+32+8+8+1), not the 49-byte layout
(32+8+8+1) of the `Escrow` struct itself, and a concrete successful Make
allocates and rent-funds 113 bytes. -/
theorem c3_counterexample :
    escrowLEN = 113 ∧ escrowLEN ≠ 49 ∧
    ((process_make_instruction [Fix.maker, Fix.escrowNew, Fix.sysA]
        Fix.makeData).res.map (fun r => r.2.data.length)) = .ok 113 ∧
    (process_make_instruction [Fix.maker, Fix.escrowNew, Fix.sysA]
        Fix.makeData).trace.head? =
      some (Effect.createAccount Fix.mKey Fix.escrowNew.key
        (rentMinimumBalance 113) 113) := by
  exact ⟨by decide, by decide, by decide, by decide⟩

/-- Amended claim C3: every successful Make on an escrow account not yet
owned by the program allocates storage of exactly `Escrow::LEN` = 113
bytes (not 49: the active constant is 32+32+32+8+8+1, larger than the
49-byte `Escrow` struct), funded by the maker with the minimum
rent-exempt balance for 113 bytes, and then writes `{maker,
amount_to_receive, amount_to_give, bump}` into the first 49 bytes,
leaving the trailing 64 bytes zero. -/
theorem c3_make_allocates_active_len (maker escrow sys : Account)
    (rest : List Account) (data : List Nat) (m1 e1 : Account)
    (hk : maker.key.length = 32)
    (h : (process_make_instruction (maker :: escrow :: sys :: rest)
        data).res = .ok (m1, e1)) :
    escrowLEN = 113 ∧ escrowLEN ≠ 49 ∧
    e1.owner = crateID ∧
    e1.data = maker.key ++ natToLE 8 (leDecode ((data.drop 1).take 8)) ++
      natToLE 8 (leDecode ((data.drop 9).take 8)) ++ [data.headI] ++
      List.replicate 64 0 ∧
    e1.data.length = escrowLEN ∧
    m1.lamports = maker.lamports - rentMinimumBalance escrowLEN ∧
    e1.lamports = escrow.lamports + rentMinimumBalance escrowLEN ∧
    (process_make_instruction (maker :: escrow :: sys :: rest) data).trace
      = [Effect.createAccount maker.key escrow.key
          (rentMinimumBalance escrowLEN) escrowLEN,
         Effect.recordWrite escrow.key e1.data] := by
  simp only [process_make_instruction] at h ⊢
  by_cases h17 : data.length < 17
  · rw [if_pos h17] at h
    exact absurd h (by simp)
  · rw [if_neg h17] at h ⊢
    by_cases hkey : deriveAddress escrowName maker.key data.headI crateID =
        escrow.key
    · rw [if_neg (by simpa using hkey)] at h ⊢
      by_cases hown : escrow.owner = crateID
      · rw [if_neg (by simpa using hown)] at h
        exact absurd h (by simp)
      · rw [if_pos hown] at h ⊢
        by_cases hbal : maker.lamports < rentMinimumBalance escrowLEN
        · rw [if_pos hbal] at h
          exact absurd h (by simp)
        · rw [if_neg hbal] at h ⊢
          rw [if_neg (by simp)] at h ⊢
          rw [if_neg (by simp [escrowAlign, Nat.mod_one])] at h ⊢
          simp only [Except.ok.injEq, Prod.mk.injEq] at h
          obtain ⟨hm, he⟩ := h
          subst hm
          subst he
          refine ⟨rfl, by decide, rfl, ?_, ?_, rfl, rfl, rfl⟩
          · exact escrow_write_layout maker.key _ _ _ hk
          · rw [escrow_write_layout maker.key _ _ _ hk]
            simp [natToLE_length, hk, escrowLEN]
    · rw [if_pos (by simpa using hkey)] at h
      exact absurd h (by simp)

/-- Witness for the amended C3 at a concrete successful Make. -/
theorem c3_witness :
    escrowLEN = 113 ∧ escrowLEN ≠ 49 ∧
    (⟨Fix.escrowAddr, crateID, 1677360,
      Fix.mKey ++ natToLE 8 7 ++ natToLE 8 9 ++ [4] ++
        List.replicate 64 0, 0⟩ : Account).owner = crateID ∧
    (⟨Fix.escrowAddr, crateID, 1677360,
      Fix.mKey ++ natToLE 8 7 ++ natToLE 8 9 ++ [4] ++
        List.replicate 64 0, 0⟩ : Account).data =
      Fix.maker.key ++
        natToLE 8 (leDecode ((Fix.makeData.drop 1).take 8)) ++
        natToLE 8 (leDecode ((Fix.makeData.drop 9).take 8)) ++
        [Fix.makeData.headI] ++ List.replicate 64 0 ∧
    (⟨Fix.escrowAddr, crateID, 1677360,
      Fix.mKey ++ natToLE 8 7 ++ natToLE 8 9 ++ [4] ++
        List.replicate 64 0, 0⟩ : Account).data.length = escrowLEN ∧
    (⟨Fix.mKey, List.replicate 32 0, 8322640, [], 0⟩ : Account).lamports =
      Fix.maker.lamports - rentMinimumBalance escrowLEN ∧
    (⟨Fix.escrowAddr, crateID, 1677360,
      Fix.mKey ++ natToLE 8 7 ++ natToLE 8 9 ++ [4] ++
        List.replicate 64 0, 0⟩ : Account).lamports =
      Fix.escrowNew.lamports + rentMinimumBalance escrowLEN ∧
    (process_make_instruction [Fix.maker, Fix.escrowNew, Fix.sysA]
        Fix.makeData).trace =
      [Effect.createAccount Fix.maker.key Fix.escrowNew.key
          (rentMinimumBalance escrowLEN) escrowLEN,
        Effect.recordWrite Fix.escrowNew.key
          (⟨Fix.escrowAddr, crateID, 1677360,
            Fix.mKey ++ natToLE 8 7 ++ natToLE 8 9 ++ [4] ++
              List.replicate 64 0, 0⟩ : Account).data] :=
  c3_make_allocates_active_len Fix.maker Fix.escrowNew Fix.sysA []
    Fix.makeData ⟨Fix.mKey, List.replicate 32 0, 8322640, [], 0⟩
    ⟨Fix.escrowAddr, crateID, 1677360,
      Fix.mKey ++ natToLE 8 7 ++ natToLE 8 9 ++ [4] ++
        List.replicate 64 0, 0⟩ (by decide) (by decide)

/-- Counterexample to claim C1 as stated: a concrete successful Take
stores the ShareRecord at the address derived from the **maker's** key —
which differs from the taker-derived address the claim names. -/
theorem c1_counterexample :
    ((process_take_instruction
        [Fix.taker, Fix.maker, Fix.escrowNew, Fix.sharesNew, Fix.sysA]
        Fix.takeData).res.map (fun r => r.2.2.2.key)) =
      .ok (deriveAddress sharesName Fix.mKey 5 crateID) ∧
    deriveAddress sharesName Fix.mKey 5 crateID ≠
      deriveAddress sharesName Fix.tKey 5 crateID := by
  exact ⟨by decide, by decide⟩

/-- Amended claim C1: for every Take that succeeds, the ShareRecord is
stored at `derive(b"shares", maker, shares_bump)` — the **maker's** public
key is the derivation key (the taker is the funder) — in a program-owned
account whose bytes equal the encoding of `{maker, taker,
amount = amount_to_give, bump = shares_bump}`. -/
theorem c1_take_record_at_maker_derived_address (taker maker escrow shares
    sys : Account) (rest : List Account) (data : List Nat)
    (t1 m1 e1 s1 : Account)
    (h : (process_take_instruction
        (taker :: maker :: escrow :: shares :: sys :: rest) data).res =
      .ok (t1, m1, e1, s1)) :
    s1.key = deriveAddress sharesName maker.key data.headI crateID ∧
    s1.owner = crateID ∧
    s1.data = maker.key ++ taker.key ++
      natToLE 8 (leDecode ((data.drop 9).take 8)) ++ [data.headI] := by
  simp only [process_take_instruction] at h
  by_cases h0 : data.length = 0
  · rw [if_pos h0] at h
    exact absurd h (by simp)
  · rw [if_neg h0] at h
    by_cases h17 : data.length < 17
    · rw [if_pos h17] at h
      exact absurd h (by simp)
    · rw [if_neg h17] at h
      rcases hset : (Mapping.set ⟨crateID, sharesName, taker⟩ sharePod
          maker.key ⟨maker.key, taker.key,
            natToLE 8 (leDecode ((data.drop 9).take 8)), data.headI⟩
          shares).res with e' | ts
      · rw [hset] at h
        exact absurd h (by simp)
      · obtain ⟨t', s'⟩ := ts
        rw [hset] at h
        simp only at h
        by_cases hbal : t'.lamports < leDecode ((data.drop 1).take 8)
        · rw [if_pos hbal] at h
          exact absurd h (by simp)
        · rw [if_neg hbal] at h
          simp only [Except.ok.injEq, Prod.mk.injEq] at h
          obtain ⟨-, -, -, hs⟩ := h
          subst hs
          obtain ⟨hk, ho, hd, -⟩ :=
            Mapping.set_ok_inv ⟨crateID, sharesName, taker⟩ sharePod
              maker.key ⟨maker.key, taker.key,
                natToLE 8 (leDecode ((data.drop 9).take 8)), data.headI⟩
              shares t' s' hset
          exact ⟨hk, ho, hd⟩

/-- Witness for the amended C1 at a concrete successful Take. -/
theorem c1_witness :
    (⟨Fix.sharesAddr, crateID, 1398960,
      Fix.mKey ++ Fix.tKey ++ natToLE 8 3 ++ [5], 0⟩ : Account).key =
      deriveAddress sharesName Fix.maker.key Fix.takeData.headI crateID ∧
    (⟨Fix.sharesAddr, crateID, 1398960,
      Fix.mKey ++ Fix.tKey ++ natToLE 8 3 ++ [5], 0⟩ : Account).owner =
      crateID ∧
    (⟨Fix.sharesAddr, crateID, 1398960,
      Fix.mKey ++ Fix.tKey ++ natToLE 8 3 ++ [5], 0⟩ : Account).data =
      Fix.maker.key ++ Fix.taker.key ++
        natToLE 8 (leDecode ((Fix.takeData.drop 9).take 8)) ++
        [Fix.takeData.headI] :=
  c1_take_record_at_maker_derived_address Fix.taker Fix.maker Fix.escrowNew
    Fix.sharesNew Fix.sysA [] Fix.takeData
    ⟨Fix.tKey, List.replicate 32 0, 8601030, [], 0⟩
    ⟨Fix.mKey, List.replicate 32 0, 10000010, [], 0⟩ Fix.escrowNew
    ⟨Fix.sharesAddr, crateID, 1398960,
      Fix.mKey ++ Fix.tKey ++ natToLE 8 3 ++ [5], 0⟩ (by decide)

/-- Counterexample to claim C2 as stated: in a concrete successful Take
the record upsert appears in the effect trace strictly before the lamport
transfer — the transfer does not precede the upsert; moreover, in a
concrete Take whose transfer step fails for insufficient balance, the
record write has already been performed within the invocation (it is in
the trace the host then discards). -/
theorem c2_counterexample :
    ¬ ((process_take_instruction
          [Fix.taker, Fix.maker, Fix.escrowNew, Fix.sharesNew, Fix.sysA]
          Fix.takeData).trace.findIdx isTransfer <
        (process_take_instruction
          [Fix.taker, Fix.maker, Fix.escrowNew, Fix.sharesNew, Fix.sysA]
          Fix.takeData).trace.findIdx isWrite) ∧
    (process_take_instruction
        [Fix.taker, Fix.maker, Fix.escrowNew, Fix.sharesNew, Fix.sysA]
        Fix.takeData).trace.any isTransfer = true ∧
    (process_take_instruction
        [Fix.taker, Fix.maker, Fix.escrowNew, Fix.sharesNew, Fix.sysA]
        Fix.takeData).trace.any isWrite = true ∧
    (process_take_instruction
        [Fix.poorTaker, Fix.maker, Fix.escrowNew, Fix.sharesNew, Fix.sysA]
        Fix.takeData).res = .error .insufficientFunds ∧
    (process_take_instruction
        [Fix.poorTaker, Fix.maker, Fix.escrowNew, Fix.sharesNew, Fix.sysA]
        Fix.takeData).trace.any isWrite = true := by
  exact ⟨by decide, by decide, by decide, by decide, by decide⟩

/-- Amended claim C2: in every Take invocation the ShareRecord upsert is
performed before the transfer — a successful trace is the upsert's effects
(containing the record write, no transfer) followed by the single
transfer — and a failed invocation performs no transfer at all; when the
transfer step itself fails, the already-performed record write is
discarded with the rest of the invocation by the host runtime's
transaction atomicity. -/
theorem c2_take_upsert_precedes_transfer (accounts : List Account)
    (data : List Nat) :
    (∀ x, (process_take_instruction accounts data).res = .ok x →
      ∃ w a b c, (process_take_instruction accounts data).trace =
          w ++ [Effect.transfer a b c] ∧
        w.any isWrite = true ∧
        w.all (fun ev => !(isTransfer ev)) = true) ∧
    (∀ e, (process_take_instruction accounts data).res = .error e →
      (process_take_instruction accounts data).trace.all
        (fun ev => !(isTransfer ev)) = true) := by
  rcases accounts with - | ⟨t, - | ⟨m, - | ⟨e, - | ⟨s, - | ⟨sys, rest⟩⟩⟩⟩⟩
  · simp [process_take_instruction]
  · simp [process_take_instruction]
  · simp [process_take_instruction]
  · simp [process_take_instruction]
  · simp [process_take_instruction]
  · by_cases h0 : data.length = 0
    · simp [process_take_instruction, h0]
    · by_cases h17 : data.length < 17
      · simp [process_take_instruction, h0, h17]
      · obtain ⟨hnotr, hok⟩ := Mapping.set_shape
          ⟨crateID, sharesName, t⟩ sharePod m.key
          ⟨m.key, t.key, natToLE 8 (leDecode ((data.drop 9).take 8)),
            data.headI⟩ s
        rcases hres : (Mapping.set ⟨crateID, sharesName, t⟩ sharePod m.key
            ⟨m.key, t.key, natToLE 8 (leDecode ((data.drop 9).take 8)),
              data.headI⟩ s).res with e' | ⟨t', s'⟩
        · constructor
          · intro x hx
            simp [process_take_instruction, h0, h17, hres] at hx
          · intro e'' he''
            simpa [process_take_instruction, h0, h17, hres] using hnotr
        · obtain ⟨htr, -⟩ := hok t' s' hres
          by_cases hbal : t'.lamports < leDecode (List.take 8 data.tail)
          · constructor
            · intro x hx
              simp [process_take_instruction, h0, h17, hres, hbal] at hx
            · intro e'' he''
              simpa [process_take_instruction, h0, h17, hres, hbal]
                using hnotr
          · constructor
            · intro x hx
              refine ⟨(Mapping.set ⟨crateID, sharesName, t⟩ sharePod m.key
                  ⟨m.key, t.key,
                    natToLE 8 (leDecode ((data.drop 9).take 8)),
                    data.headI⟩ s).trace, t.key, m.key,
                leDecode (List.take 8 data.tail), ?_, ?_, hnotr⟩
              · simp [process_take_instruction, h0, h17, hres, hbal]
              · rw [htr]
                simp [isWrite]
            · intro e'' he''
              simp [process_take_instruction, h0, h17, hres, hbal] at he''
  -- end of the account-shape case analysis

/-- Witness for the amended C2: a concrete Take whose transfer step fails
performed no transfer effect. -/
theorem c2_witness :
    (process_take_instruction
        [Fix.poorTaker, Fix.maker, Fix.escrowNew, Fix.sharesNew, Fix.sysA]
        Fix.takeData).trace.all (fun ev => !(isTransfer ev)) = true :=
  (c2_take_upsert_precedes_transfer
    [Fix.poorTaker, Fix.maker, Fix.escrowNew, Fix.sharesNew, Fix.sysA]
    Fix.takeData).2 .insufficientFunds (by decide)

/-- Claim C9: the outcome of a Take invocation is independent of the
escrow account's stored bytes — two invocations identical except for those
bytes produce the identical effect trace and the identical result on
every component other than the pass-through escrow slot, and the escrow
component of a successful result is exactly the input escrow account
(Take never reads or writes it). -/
theorem c9_take_ignores_escrow_bytes (taker maker escrow shares sys :
    Account) (rest : List Account) (data escrowData : List Nat) :
    (process_take_instruction
        (taker :: maker :: { escrow with data := escrowData } :: shares ::
          sys :: rest) data).trace =
      (process_take_instruction
        (taker :: maker :: escrow :: shares :: sys :: rest) data).trace ∧
    ((process_take_instruction
        (taker :: maker :: { escrow with data := escrowData } :: shares ::
          sys :: rest) data).res.map (fun r => (r.1, r.2.1, r.2.2.2))) =
      ((process_take_instruction
        (taker :: maker :: escrow :: shares :: sys :: rest) data).res.map
          (fun r => (r.1, r.2.1, r.2.2.2))) ∧
    ((process_take_instruction
        (taker :: maker :: escrow :: shares :: sys :: rest) data).res.map
          (fun r => r.2.2.1)) =
      ((process_take_instruction
        (taker :: maker :: escrow :: shares :: sys :: rest) data).res.map
          (fun _ => escrow)) ∧
    ((process_take_instruction
        (taker :: maker :: { escrow with data := escrowData } :: shares ::
          sys :: rest) data).res.map (fun r => r.2.2.1)) =
      ((process_take_instruction
        (taker :: maker :: { escrow with data := escrowData } :: shares ::
          sys :: rest) data).res.map
          (fun _ => { escrow with data := escrowData })) := by
  by_cases h0 : data.length = 0
  · simp [process_take_instruction, h0, Except.map]
  · by_cases h17 : data.length < 17
    · simp [process_take_instruction, h0, h17, Except.map]
    · rcases hres : (Mapping.set ⟨crateID, sharesName, taker⟩ sharePod
          maker.key ⟨maker.key, taker.key,
            natToLE 8 (leDecode ((data.drop 9).take 8)), data.headI⟩
          shares).res with e' | ⟨t', s'⟩
      · simp [process_take_instruction, h0, h17, hres, Except.map]
      · by_cases hbal : t'.lamports < leDecode (List.take 8 data.tail)
        · simp [process_take_instruction, h0, h17, hres, hbal, Except.map]
        · simp [process_take_instruction, h0, h17, hres, hbal, Except.map]

/-- Witness for the amended C10 at a concrete aligned account. -/
theorem c10_witness :
    Share.mapping_set sharePod Fix.mKey Fix.share Fix.sharesOwned
        Fix.taker =
      (Mapping.new crateID sharesName Fix.taker).set sharePod Fix.mKey
        Fix.share Fix.sharesOwned := by
  exact c10_mapping_set_agrees_when_aligned _ _ _ _ _ (by decide)

end Escrow
